import Mathlib

/-!
Verification development for the lmdb-js-lite transaction/worker layer.

The repository ships a JavaScript/TypeScript surface (src/compat.js,
src/unnamed/part_003, src/unnamed/part_004) over a native `Lmdb` core.
The native core's source is not part of the source tree given here (only
its Cargo manifest, tests and callers are), so the core's operations are
modelled from the specification (sections 3, 4.2, 4.3, 4.5) and marked
as such in their doc comments.  The JavaScript wrappers and the
`LMDBCacheSafe` cache class are embedded directly from their source.

All async command processing (the Command Channel plus Write Worker of
the spec) is collapsed into sequential state transformation: the channel
is a strict FIFO with a single consumer, so commands execute in
submission order and each completion resolves after its command ran.
-/

namespace LmdbJsLite

/-- Keys are the host strings used throughout the tests and wrappers
(opaque, ordered byte strings at the engine level). -/
abbrev Key := String

/-- Values are opaque byte strings; bytes are modelled as naturals. -/
abbrev Val := List Nat

/-- The committed key/value contents of the environment, most recent
write first. -/
abbrev Store := List (Key × Val)

/-- Lookup in a store: the most recent binding of the key wins. -/
def storeGet (st : Store) (k : Key) : Option Val :=
  match st with
  | [] => none
  | (k2, v) :: rest => if k2 = k then some v else storeGet rest k

/-- Record a write in a store (prepend, so it shadows older bindings). -/
def storePut (st : Store) (k : Key) (v : Val) : Store :=
  (k, v) :: st

/-- Error kinds of the spec's section 7 used by the claims. -/
inductive ErrKind where
  | OpenError
  | Closed
  | TransactionAlreadyOpen
  | NoTransaction
  | MapFull
  | EngineError
  deriving DecidableEq, Repr

/-- Modelled from the spec: the state of one opened environment as seen
through the transaction/worker layer (the native core is absent from the
source tree).  `committed` is the latest committed snapshot, `writeTxn`
the working contents of the explicit write transaction owned by the
Write Worker (none when no explicit transaction is open), `readSlot` the
cached Read Transaction Slot snapshot of the host thread, and `closed`
the terminal closed flag. -/
structure LmdbState where
  committed : Store
  writeTxn : Option Store
  readSlot : Option Store
  closed : Bool
  deriving DecidableEq, Repr

/-- A freshly opened environment: empty store, no transactions. -/
def initState : LmdbState :=
  { committed := [], writeTxn := none, readSlot := none, closed := false }

/-- Modelled from the spec: a resolved `put`.  After `close` every
operation fails with `Closed`.  Inside an explicit write transaction the
write lands in the transaction's working contents and resolves on the
commit of that transaction; outside one, the Write Worker opens an
implicit transaction and commits it when the queue empties, so a
resolved lone put is committed. -/
def applyPut (s : LmdbState) (k : Key) (v : Val) : Except ErrKind LmdbState :=
  if s.closed then .error .Closed
  else
    match s.writeTxn with
    | some t => .ok { s with writeTxn := some (storePut t k v) }
    | none => .ok { s with committed := storePut s.committed k v }

/-- Modelled from the spec: `startWriteTransaction` must not be nested;
a second start while one is active fails with `TransactionAlreadyOpen`.
A fresh explicit transaction starts from the committed snapshot. -/
def startWriteTransaction (s : LmdbState) : Except ErrKind LmdbState :=
  if s.closed then .error .Closed
  else
    match s.writeTxn with
    | some _ => .error .TransactionAlreadyOpen
    | none => .ok { s with writeTxn := some s.committed }

/-- Modelled from the spec: `commitWriteTransaction` without a matching
start fails with `NoTransaction`; otherwise the explicit transaction's
contents become the committed snapshot. -/
def commitWriteTransaction (s : LmdbState) : Except ErrKind LmdbState :=
  if s.closed then .error .Closed
  else
    match s.writeTxn with
    | none => .error .NoTransaction
    | some t => .ok { s with committed := t, writeTxn := none }

/-- Modelled from the spec: the facade's async `get` runs on the worker
with a fresh short-lived read transaction, hence against the latest
committed snapshot. -/
def get (s : LmdbState) (k : Key) : Except ErrKind (Option Val) :=
  if s.closed then .error .Closed
  else .ok (storeGet s.committed k)

/-- Modelled from the spec: `getSync` reads through the Read Transaction
Slot; with an active slot it observes the slot's stable snapshot,
otherwise a fresh short-lived read transaction sees the latest committed
snapshot. -/
def getSync (s : LmdbState) (k : Key) : Except ErrKind (Option Val) :=
  if s.closed then .error .Closed
  else
    match s.readSlot with
    | some snap => .ok (storeGet snap k)
    | none => .ok (storeGet s.committed k)

/-- Modelled from the spec: `startReadTransaction` stores a read
transaction in the slot; starting is idempotent within a thread. -/
def startReadTransaction (s : LmdbState) : Except ErrKind LmdbState :=
  if s.closed then .error .Closed
  else
    match s.readSlot with
    | some _ => .ok s
    | none => .ok { s with readSlot := some s.committed }

/-- Modelled from the spec: the core's `resetReadTxn` renews the stored
read transaction to observe the latest committed snapshot; with no slot
entry a renew is a no-op. -/
def resetReadTxn (s : LmdbState) : Except ErrKind LmdbState :=
  if s.closed then .error .Closed
  else
    match s.readSlot with
    | some _ => .ok { s with readSlot := some s.committed }
    | none => .ok s

/-- Modelled from the spec: `close` drains the worker and closes the
engine; it is idempotent and marks the handle terminally closed. -/
def close (s : LmdbState) : LmdbState :=
  { s with closed := true }

/-- Write-side commands a host submits through the Command Channel. -/
inductive WriteCmd where
  | putCmd (k : Key) (v : Val)
  | startWriteCmd
  | commitWriteCmd
  deriving DecidableEq, Repr

/-- Run one command; a command that fails leaves the environment
unchanged (the error is delivered to the submitting call). -/
def runCmd (s : LmdbState) (c : WriteCmd) : LmdbState :=
  match c with
  | .putCmd k v =>
    match applyPut s k v with
    | .ok s2 => s2
    | .error _ => s
  | .startWriteCmd =>
    match startWriteTransaction s with
    | .ok s2 => s2
    | .error _ => s
  | .commitWriteCmd =>
    match commitWriteTransaction s with
    | .ok s2 => s2
    | .error _ => s

/-- Run a FIFO sequence of commands in submission order. -/
def runCmds (s : LmdbState) (cs : List WriteCmd) : LmdbState :=
  match cs with
  | [] => s
  | c :: rest => runCmds (runCmd s c) rest

/-- Total view of `startReadTransaction` (errors keep the state). -/
def startReadState (s : LmdbState) : LmdbState :=
  match startReadTransaction s with
  | .ok s2 => s2
  | .error _ => s

/-- Total view of `resetReadTxn` (errors keep the state). -/
def resetReadState (s : LmdbState) : LmdbState :=
  match resetReadTxn s with
  | .ok s2 => s2
  | .error _ => s

/-- Write commands never touch the Read Transaction Slot (the Write
Worker never holds a read transaction). -/
theorem runCmd_readSlot (s : LmdbState) (c : WriteCmd) :
    (runCmd s c).readSlot = s.readSlot := by
  cases c <;> cases hc : s.closed <;>
    simp [runCmd, applyPut, startWriteTransaction, commitWriteTransaction, hc] <;>
    cases hw : s.writeTxn <;> simp [hw]

/-- Write commands never close the environment. -/
theorem runCmd_closed (s : LmdbState) (c : WriteCmd) :
    (runCmd s c).closed = s.closed := by
  cases c <;> cases hc : s.closed <;>
    simp [runCmd, applyPut, startWriteTransaction, commitWriteTransaction, hc] <;>
    cases hw : s.writeTxn <;> simp [hw, hc]

/-- Sequences of write commands preserve the Read Transaction Slot. -/
theorem runCmds_readSlot (cs : List WriteCmd) :
    ∀ s : LmdbState, (runCmds s cs).readSlot = s.readSlot := by
  induction cs with
  | nil => intro s; simp [runCmds]
  | cons c rest ih =>
    intro s
    simp only [runCmds]
    rw [ih (runCmd s c), runCmd_readSlot]

/-- Sequences of write commands preserve the closed flag. -/
theorem runCmds_closed (cs : List WriteCmd) :
    ∀ s : LmdbState, (runCmds s cs).closed = s.closed := by
  induction cs with
  | nil => intro s; simp [runCmds]
  | cons c rest ih =>
    intro s
    simp only [runCmds]
    rw [ih (runCmd s c), runCmd_closed]

/-! JavaScript layer, embedded from the source under src/.

The wrapper methods return JavaScript values; `Option Val` renders the
JS value space of the read path: `none` is JS `null`, `some b` is a
`Uint8Array`/`Buffer` holding bytes `b` (`some []` is the empty, and in
particular non-null, `Uint8Array`). -/

/-- Value argument of the wrappers' `put`: a JS string or a `Buffer`. -/
inductive PutVal where
  | str (t : String)
  | buf (b : List Nat)
  deriving DecidableEq, Repr

/-- Model of the external `v8.serialize` (a Node builtin, outside this
repository): an injective string-to-bytes encoding, rendered here as
the string's code points. -/
def v8Serialize (t : String) : List Nat :=
  t.data.map Char.toNat

/-- Embedded from src/compat.js lines 28-31 (both copies of the file
agree): `get(key)` computes `value = lmdb.getSync(key)` and returns
`new Uint8Array(value)`.  In JavaScript `new Uint8Array(null)` is the
empty `Uint8Array`, so an absent key yields `some []`, never `none`. -/
def compatStoreGet (s : LmdbState) (k : Key) : Except ErrKind (Option Val) :=
  match getSync s k with
  | .error e => .error e
  | .ok none => .ok (some [])
  | .ok (some b) => .ok (some b)

/-- Embedded from src/unnamed/part_003 lines 29-33: `get(key)` computes
`value = lmdb.getSync(key)`, returns it unchanged when it is null, and
otherwise returns `Buffer.from(value)` (the same bytes). -/
def tsStoreGet (s : LmdbState) (k : Key) : Except ErrKind (Option Val) :=
  match getSync s k with
  | .error e => .error e
  | .ok none => .ok none
  | .ok (some b) => .ok (some b)

/-- Embedded from src/compat.js lines 37-39: `put(key, value)` calls
`lmdb.put(key, value)` with the value exactly as received — no string
conversion.  This is the value argument the wrapper forwards. -/
def compatV1PutArg (value : PutVal) : PutVal :=
  value

/-- Embedded from src/unnamed/part_003 lines 40-45 (and the string
branch of src/compat.js lines 100-105): a string value is replaced by
`Buffer.from(v8.serialize(value))` before the underlying put.  This is
the byte buffer the wrapper passes to `lmdb.put`. -/
def tsWrapperPutArg (value : PutVal) : Val :=
  match value with
  | .str t => v8Serialize t
  | .buf b => b

/-- Embedded from src/unnamed/part_003 lines 40-45: `put` converts the
value and awaits the underlying `lmdb.put`, so its completion is
exactly the underlying put's completion. -/
def tsWrapperPut (s : LmdbState) (k : Key) (value : PutVal) :
    Except ErrKind LmdbState :=
  applyPut s k (tsWrapperPutArg value)

/-- Embedded from src/compat.js line 41 and src/unnamed/part_003 line
47: `resetReadTxn() {}` — an empty method body, so the wrapper leaves
the underlying state untouched. -/
def wrapperResetReadTxn (s : LmdbState) : LmdbState :=
  s

/-- Options object accepted by the wrappers' `openDB` (DBOpenOptions in
src/compat.js and src/unnamed/part_003). -/
structure DBOpenOptions where
  name : String
  encoding : String
  compression : Bool
  deriving DecidableEq, Repr

/-- Configuration the `Lmdb` constructor receives. -/
structure LmdbOptions where
  path : String
  asyncWrites : Bool
  mapSize : Nat
  deriving DecidableEq, Repr

/-- Embedded from src/unnamed/part_003 lines 55-63 (same shape as
src/compat.js lines 115-123): `openDB(directory, openOptions)` builds a
wrapper over `new Lmdb({path: directory, asyncWrites: false, mapSize:
1024*1024*1024*50})`; the options object is never read. -/
def openDB (directory : String) (openOptions : DBOpenOptions) : LmdbOptions :=
  { path := directory, asyncWrites := false, mapSize := 1024 * 1024 * 1024 * 50 }

/-- Embedded from src/compat.js lines 49-57 (the first copy in that
file): identical to `openDB` except for the constant
`mapSize: 1024*1024*1024*20`; the options object is never read. -/
def compatV1openDB (directory : String) (openOptions : DBOpenOptions) :
    LmdbOptions :=
  { path := directory, asyncWrites := false, mapSize := 1024 * 1024 * 1024 * 20 }

/-! The LMDBCacheSafe cache class, embedded from src/unnamed/part_004.
Its read methods share the wrapper's `store.get`; each is parameterized
here by that call's result `g`. -/

/-- Embedded from src/unnamed/part_004 lines 78-80: `has(key)` resolves
with `this.store.get(key) != null`. -/
def cacheHas (g : Except ErrKind (Option Val)) : Except ErrKind Bool :=
  match g with
  | .error e => .error e
  | .ok d => .ok d.isSome

/-- Embedded from src/unnamed/part_004 lines 81-87: `get(key)` takes its
null branch (resolving `null`) exactly when `this.store.get(key)` is
null; otherwise it resolves with the deserialized data. -/
def cacheGetNullBranch (g : Except ErrKind (Option Val)) : Except ErrKind Bool :=
  match g with
  | .error e => .error e
  | .ok d => .ok d.isNone

/-- Embedded from src/unnamed/part_004 lines 99-104: `getBlob(key)`
rejects with an error exactly when `this.store.get(key)` is null, and
otherwise resolves with the buffer. -/
def cacheGetBlobRejects (g : Except ErrKind (Option Val)) : Except ErrKind Bool :=
  match g with
  | .error e => .error e
  | .ok d => .ok d.isNone

/-! Derived runs used by the round-trip and last-write-wins claims. -/

/-- A finite sequence of puts submitted in order by a single caller. -/
def applyPuts (s : LmdbState) (ps : List (Key × Val)) : LmdbState :=
  runCmds s (ps.map fun kv => .putCmd kv.1 kv.2)

/-- The value of the last put for a key in submission order, if any. -/
def lastPutVal (ps : List (Key × Val)) (k : Key) : Option Val :=
  match ps with
  | [] => none
  | (k2, v) :: rest =>
    match lastPutVal rest k with
    | some w => some w
    | none => if k2 = k then some v else none

/-- With no explicit write transaction open, a sequence of resolved
puts leaves as the committed value of each key the last put for that
key in submission order, falling back to the prior contents. -/
theorem applyPuts_committed_get (ps : List (Key × Val)) :
    ∀ committed : Store, ∀ slot : Option Store, ∀ k : Key,
      storeGet (applyPuts ⟨committed, none, slot, false⟩ ps).committed k =
        match lastPutVal ps k with
        | some w => some w
        | none => storeGet committed k := by
  induction ps with
  | nil => intro committed slot k; rfl
  | cons p rest ih =>
    intro committed slot k
    obtain ⟨k2, v⟩ := p
    have hstep : applyPuts ⟨committed, none, slot, false⟩ ((k2, v) :: rest) =
        applyPuts ⟨storePut committed k2 v, none, slot, false⟩ rest := rfl
    rw [hstep, ih]
    cases h : lastPutVal rest k with
    | some w => simp [lastPutVal, h]
    | none =>
      by_cases hk : k2 = k
      · simp [lastPutVal, h, hk, storeGet, storePut]
      · simp [lastPutVal, h, hk, storeGet, storePut]

/-! Claim theorems. -/

/-- C1: after put(k,v) resolves on a handle with no explicit write
transaction open (so the implicit transaction has committed), a
subsequent get(k) returns exactly v; getSync(k) on a read transaction
started after the resolution returns exactly v; and getSync(k) after
resetReadTxn on a handle holding an arbitrary stale read snapshot
returns exactly v. -/
theorem put_get_roundtrip (committed oldSnap : Store) (k : Key) (v : Val) :
    ∃ s2, applyPut ⟨committed, none, none, false⟩ k v = .ok s2 ∧
      get s2 k = .ok (some v) ∧
      getSync (startReadState s2) k = .ok (some v) ∧
      getSync (resetReadState { s2 with readSlot := some oldSnap }) k =
        .ok (some v) := by
  refine ⟨⟨storePut committed k v, none, none, false⟩, rfl, ?_, ?_, ?_⟩ <;>
    simp [get, getSync, startReadState, startReadTransaction,
      resetReadState, resetReadTxn, storeGet, storePut]

/-- C2: for a never-written key the core get returns null and the
part_003 wrapper forwards that null, but the compat.js wrapper
evaluates new Uint8Array(null) and hands back the empty, non-null
Uint8Array (some []), contradicting the claimed null. -/
theorem compat_get_absent_key_empty_array :
    get initState "missing" = .ok none ∧
    tsStoreGet initState "missing" = .ok none ∧
    compatStoreGet initState "missing" = .ok (some ([] : Val)) :=
  ⟨rfl, rfl, rfl⟩

/-- C3 counterexample: on a handle whose read snapshot predates a
committed write, the wrapper resetReadTxn (an empty method body) is the
identity, and a read issued after the call still misses the write whose
commit completed before the call — the claim fails on the wrapper. -/
theorem wrapper_resetReadTxn_is_noop :
    wrapperResetReadTxn (runCmd (startReadState initState) (.putCmd "k" [1])) =
      runCmd (startReadState initState) (.putCmd "k" [1]) ∧
    storeGet (runCmd (startReadState initState) (.putCmd "k" [1])).committed "k" =
      some [1] ∧
    getSync (wrapperResetReadTxn
      (runCmd (startReadState initState) (.putCmd "k" [1]))) "k" = .ok none :=
  ⟨rfl, rfl, rfl⟩

/-- C3 amended: the core resetReadTxn, called on a handle whose read
transaction is active, after any sequence of write commands, renews the
snapshot so that a read issued after the call observes exactly the
latest committed store — every write whose commit completed before the
call. -/
theorem core_resetReadTxn_renews (committed snap : Store) (wt : Option Store)
    (cs : List WriteCmd) (k : Key) :
    ∃ s2, resetReadTxn (runCmds ⟨committed, wt, some snap, false⟩ cs) = .ok s2 ∧
      getSync s2 k =
        .ok (storeGet (runCmds ⟨committed, wt, some snap, false⟩ cs).committed k) := by
  have h1 := runCmds_closed cs ⟨committed, wt, some snap, false⟩
  have h2 := runCmds_readSlot cs ⟨committed, wt, some snap, false⟩
  simp only [] at h1 h2
  refine ⟨{ runCmds ⟨committed, wt, some snap, false⟩ cs with
    readSlot := some (runCmds ⟨committed, wt, some snap, false⟩ cs).committed }, ?_, ?_⟩
  · simp [resetReadTxn, h1, h2]
  · simp [getSync, h1]

/-- C4: for a finite sequence of puts submitted in order by one caller
with no explicit write transaction open, once all have resolved the
readable value for k is the value of the last put for k in submission
order. -/
theorem puts_last_write_wins (committed : Store) (slot : Option Store)
    (ps : List (Key × Val)) (k : Key) (v : Val)
    (h : lastPutVal ps k = some v) :
    get (applyPuts ⟨committed, none, slot, false⟩ ps) k = .ok (some v) := by
  have hc : (applyPuts ⟨committed, none, slot, false⟩ ps).closed = false := by
    simpa [applyPuts] using
      runCmds_closed (ps.map fun kv => .putCmd kv.1 kv.2) ⟨committed, none, slot, false⟩
  have hg := applyPuts_committed_get ps committed slot k
  rw [h] at hg
  simp [get, hc, hg]

theorem puts_last_write_wins_witness :
    get (applyPuts ⟨[], none, none, false⟩ [("a", [1]), ("a", [2]), ("b", [3])])
      "a" = .ok (some [2]) :=
  puts_last_write_wins [] none [("a", [1]), ("a", [2]), ("b", [3])] "a" [2]
    (by decide)

/-- C5: a read transaction started at time t0 observes the snapshot of
t0: reads through it return the t0 contents regardless of any write
commands (puts, transaction starts, commits) processed afterwards,
until the transaction is reset or ended. -/
theorem read_txn_snapshot_isolation (committed : Store) (wt : Option Store)
    (cs : List WriteCmd) (k : Key) :
    getSync (runCmds (startReadState ⟨committed, wt, none, false⟩) cs) k =
      .ok (storeGet committed k) := by
  have hs : startReadState ⟨committed, wt, none, false⟩ =
      ⟨committed, wt, some committed, false⟩ := rfl
  rw [hs]
  have h1 := runCmds_closed cs ⟨committed, wt, some committed, false⟩
  have h2 := runCmds_readSlot cs ⟨committed, wt, some committed, false⟩
  simp only [] at h1 h2
  simp [getSync, h1, h2]

/-- C6: a second startWriteTransaction while one is active fails with
TransactionAlreadyOpen and changes nothing, and commitWriteTransaction
with no explicit write transaction open fails with NoTransaction and
changes nothing. -/
theorem write_txn_start_commit_errors (committed t : Store) (slot : Option Store) :
    startWriteTransaction ⟨committed, some t, slot, false⟩ =
      .error .TransactionAlreadyOpen ∧
    runCmd ⟨committed, some t, slot, false⟩ .startWriteCmd =
      ⟨committed, some t, slot, false⟩ ∧
    commitWriteTransaction ⟨committed, none, slot, false⟩ =
      .error .NoTransaction ∧
    runCmd ⟨committed, none, slot, false⟩ .commitWriteCmd =
      ⟨committed, none, slot, false⟩ :=
  ⟨rfl, rfl, rfl, rfl⟩

/-- C7 counterexample: the compat.js (lines 37-39) wrapper put forwards
a string value to the underlying put exactly as received — it is not
the byte buffer the claim requires it to be converted into. -/
theorem compat_put_forwards_string_unconverted :
    compatV1PutArg (.str "x") = PutVal.str "x" ∧
    PutVal.str "x" ≠ PutVal.buf (v8Serialize "x") := by
  exact ⟨rfl, by decide⟩

/-- C7 amended: the part_003 wrapper put converts a string value by
wrapping it in a byte buffer (v8-serialized) and delegates to the
underlying put, so its completion is the underlying put's completion;
once that put resolves the serialized bytes are the stored value. -/
theorem ts_put_converts_string_and_delegates (committed : Store)
    (slot : Option Store) (k : Key) (t : String) (b : List Nat) :
    tsWrapperPut ⟨committed, none, slot, false⟩ k (.str t) =
      applyPut ⟨committed, none, slot, false⟩ k (v8Serialize t) ∧
    tsWrapperPut ⟨committed, none, slot, false⟩ k (.buf b) =
      applyPut ⟨committed, none, slot, false⟩ k b ∧
    ∃ s2, tsWrapperPut ⟨committed, none, slot, false⟩ k (.str t) = .ok s2 ∧
      storeGet s2.committed k = some (v8Serialize t) := by
  refine ⟨rfl, rfl,
    ⟨⟨storePut committed k (v8Serialize t), none, slot, false⟩, rfl, ?_⟩⟩
  simp [storeGet, storePut]

/-- C8: close is idempotent — closing an already-closed handle succeeds
and changes nothing — and every operation invoked after close fails
with the Closed error. -/
theorem close_idempotent_then_all_ops_closed (s : LmdbState) (k : Key) (v : Val) :
    close (close s) = close s ∧
    applyPut (close s) k v = .error .Closed ∧
    get (close s) k = .error .Closed ∧
    getSync (close s) k = .error .Closed ∧
    startWriteTransaction (close s) = .error .Closed ∧
    commitWriteTransaction (close s) = .error .Closed ∧
    startReadTransaction (close s) = .error .Closed ∧
    resetReadTxn (close s) = .error .Closed :=
  ⟨rfl, rfl, rfl, rfl, rfl, rfl, rfl, rfl⟩

/-- C9 counterexample: through the compat.js wrapper store, on a fresh
cache and a key the store holds no value for, LMDBCacheSafe.has
resolves true and LMDBCacheSafe.getBlob does not reject — the three
read operations do not agree on key presence. -/
theorem cache_reads_disagree_on_compat_store :
    storeGet initState.committed "k" = none ∧
    cacheHas (compatStoreGet initState "k") = .ok true ∧
    cacheGetBlobRejects (compatStoreGet initState "k") = .ok false :=
  ⟨rfl, rfl, rfl⟩

/-- C9 amended: through a store whose get returns null exactly for
absent keys (the part_003 wrapper, reading outside an explicit read
transaction), LMDBCacheSafe.has resolves true exactly when the store
holds a value for the key, and LMDBCacheSafe.get takes its null branch
and LMDBCacheSafe.getBlob rejects exactly when it holds none. -/
theorem cache_reads_agree_on_presence (committed : Store) (wt : Option Store)
    (k : Key) :
    cacheHas (tsStoreGet ⟨committed, wt, none, false⟩ k) =
      .ok (storeGet committed k).isSome ∧
    cacheGetNullBranch (tsStoreGet ⟨committed, wt, none, false⟩ k) =
      .ok (storeGet committed k).isNone ∧
    cacheGetBlobRejects (tsStoreGet ⟨committed, wt, none, false⟩ k) =
      .ok (storeGet committed k).isNone := by
  cases h2 : storeGet committed k <;>
    simp [cacheHas, cacheGetNullBranch, cacheGetBlobRejects, tsStoreGet,
      getSync, h2]

/-- C10: openDB builds identically configured handles for the same
directory whatever options object is passed — name, encoding and
compression have no influence — and the underlying Lmdb configuration
is always asyncWrites = false with the version's fixed mapSize (50 GiB
in part_003 and the second compat.js copy, 20 GiB in the first), so
the open result depends only on the directory. -/
theorem openDB_ignores_options (d : String) (o1 o2 : DBOpenOptions) :
    openDB d o1 = openDB d o2 ∧
    (openDB d o1).path = d ∧
    (openDB d o1).asyncWrites = false ∧
    (openDB d o1).mapSize = 1024 * 1024 * 1024 * 50 ∧
    compatV1openDB d o1 = compatV1openDB d o2 ∧
    (compatV1openDB d o1).path = d ∧
    (compatV1openDB d o1).asyncWrites = false ∧
    (compatV1openDB d o1).mapSize = 1024 * 1024 * 1024 * 20 :=
  ⟨rfl, rfl, rfl, rfl, rfl, rfl, rfl, rfl⟩

end LmdbJsLite
